import Mathlib

/-! reprocess-cards: a verification development of `src/index.js`.

The script reads a list of card identifiers, splits it into groups of
`NUM_THREADS`, and for every card runs `processCard`: look the fraud ticket
up, confirm its state in the store, read the latest history entry, and
publish a message to a queue.

The embedding is shallow.  Pure functions (`chunkArray`,
`checkIfIsAutomaticApproval`) become Lean functions.  The asynchronous,
effectful functions (`sendMessageToQueue`, `processCard`, the loop of `main`)
become functions from a state of the outside world to a result, a new state
and the list of effects performed, with JavaScript exceptions as `Except`.
-/

namespace ReprocessCards

/-! ## The batcher: `chunkArray` (index.js, lines 29-35) -/

/-- The method `Array.prototype.slice(start, stop)` for non-negative integer bounds: the
elements at the indices `start ≤ k < min stop length`. -/
def slice {α : Type} (array : List α) (start stop : Nat) : List α :=
  (array.take stop).drop start

/-- The `for (let i = 0; i < array.length; i += size)` loop of `chunkArray`,
with the loop variable `i` and the accumulator `result` as arguments.  The
first argument bounds the number of iterations; `none` means the bound was
reached with the loop still running. -/
def chunkLoop {α : Type} (array : List α) (size : Nat) :
    Nat → Nat → List (List α) → Option (List (List α))
  | 0, _, _ => none
  | fuel + 1, i, result =>
    if i < array.length then
      chunkLoop array size fuel (i + size) (result ++ [slice array i (i + size)])
    else
      some result

/-- The function `chunkArray(array, size)`.  The loop gets `array.length + 1` iterations,
which is enough whenever `size` is positive; with `size = 0` and a non-empty
array the JavaScript loop never ends, and the model answers `none`. -/
def chunkArray {α : Type} (array : List α) (size : Nat) : Option (List (List α)) :=
  chunkLoop array size (array.length + 1) 0 []

/-- The groups the loop still has to produce from the remainder `l` of the
array: used only to describe the result of `chunkLoop`. -/
def chunksFrom {α : Type} (size : Nat) : Nat → List α → List (List α)
  | 0, _ => []
  | _ + 1, [] => []
  | fuel + 1, a :: as => (a :: as).take size :: chunksFrom size fuel ((a :: as).drop size)

/-- The constant `NUM_THREADS` (index.js, line 19). -/
def NUM_THREADS : Nat := 100

/-! ## The classifier: `checkIfIsAutomaticApproval` (index.js, lines 57-59) -/

/-- An identifier of the store (`ObjectId` of the `mongodb` package), recorded
by its hexadecimal text as `toHexString` prints it: 24 digits, the letters in
lower case. -/
structure ObjectId where
  hex : String
  deriving DecidableEq, Repr

/-- The `card` sub-document of a ticket; the script only reads `card.id`. -/
structure CardRef where
  id : String
  deriving DecidableEq, Repr

/-- A document of the `ticketFraud` collection, with the fields the script
reads or writes. -/
structure Ticket where
  _id : ObjectId
  card : CardRef
  currentState : String
  isActive : Bool
  deriving DecidableEq, Repr

/-- The function `checkIfIsAutomaticApproval(oldFraud, newFraud)`. -/
def checkIfIsAutomaticApproval (oldFraud newFraud : Ticket) : Bool :=
  (oldFraud.currentState == "new" || oldFraud.currentState == "quarantine")
    && newFraud.currentState == "under_discussion"

/-! ## The outside world: store, transport, effects -/

/-- A JavaScript exception, by its `message`. -/
structure JSError where
  message : String
  deriving DecidableEq, Repr

/-- A document of the `fraudHistory` collection. -/
structure FraudHistoryEntry where
  ticketId : ObjectId
  responsible : String
  date : Nat
  deriving DecidableEq, Repr

/-- The `$set` document that `processCard` passes to `findOneAndUpdate`. -/
structure SetPatch where
  currentState : String
  isActive : Bool
  deriving DecidableEq, Repr

/-- The object literal that `processCard` passes to `sendMessageToQueue`
(lines 92-98): the updated ticket spread out, then the four keys written after
the spread. -/
structure MessageData where
  _id : ObjectId
  card : CardRef
  currentState : String
  isActive : Bool
  isAutomaticApproval : Bool
  approvedBy : ObjectId
  statusChanged : Bool
  deriving DecidableEq, Repr

/-- The payload that `sendMessageToQueue` hands to `pub.send` (lines 45-48). -/
structure Message where
  action : String
  data : MessageData
  deriving DecidableEq, Repr

/-- What the script does to the outside world, one constructor for each call
or output statement of `sendMessageToQueue`, `processCard` and the loop of
`main`. -/
inductive Event where
  /-- Line 63: `console.log('🔄 Processando card:', card)`. -/
  | logProcessing (card : String)
  /-- Line 64: the call `ticketFraudCol.findOne` by `card.id`. -/
  | findOneByCard (cardId : String)
  /-- Line 66: `console.warn` of the ticket that was not found. -/
  | warnNotFound (card : String)
  /-- Line 70: the call `ticketFraudCol.findOne` by identifier. -/
  | findOneById (id : ObjectId)
  /-- Line 71: the call `ticketFraudCol.findOneAndUpdate`. -/
  | findOneAndUpdate (id : ObjectId) (set : SetPatch)
  /-- Line 80: `console.log('updatedFraud.card:', updatedFraud.card)`. -/
  | logUpdatedCard (card : CardRef)
  /-- Line 82: the call `ticketFraudHistoryCol.find(...).toArray()`. -/
  | findHistory (ticketId : ObjectId)
  /-- Line 90: `console.log('responsible:', responsible)`. -/
  | logResponsible (responsible : String)
  /-- Line 40: the call `rabbit.createPublisher`. -/
  | createPublisher
  /-- Line 45: the call `pub.send(queue, message)`. -/
  | send (queue : String) (message : Message)
  /-- Line 49: `console.log` of the message that was sent. -/
  | logSent (queue : String)
  /-- Line 51: `console.error('Failed to send message to queue:', err)`. -/
  | errorSend (err : JSError)
  /-- Line 53: the call `pub.close()`. -/
  | closePublisher
  /-- Line 100: `eventStream.emit('progress', ...)`, the success message. -/
  | emitProgress (card : String)
  /-- Line 102: `console.error` of the card that failed, with `error.message`. -/
  | errorCard (card : String) (message : String)
  /-- Line 121: `console.log` of the size of the group about to start. -/
  | logBatch (size : Nat)
  deriving DecidableEq, Repr

/-- The value of the `date` key of a `sort` option: `1` is oldest first, `-1`
is most recent first. -/
inductive SortDirection where
  | ascending
  | descending
  deriving DecidableEq, Repr

/-- The collaborators of the script, over a state `σ` of the outside world
(store contents, broker, connections).  Every call gets the state, answers
with a value or throws, and leaves a new state.  `QUEUE_NAME` and
`QUEUE_ACTION` are the two values of `environments.js` that `processCard`
uses; `validObjectId` says for which strings `new ObjectId(string)` does not
throw (the strings of 24 hexadecimal digits); `findHistory` is the query
`find` by `ticketId` with the option `sort` on `date` in the given
direction. -/
structure Env (σ : Type) where
  QUEUE_NAME : String
  QUEUE_ACTION : String
  validObjectId : String → Bool
  findOneByCard : String → σ → Except JSError (Option Ticket) × σ
  findOneById : ObjectId → σ → Except JSError (Option Ticket) × σ
  findOneAndUpdate : ObjectId → SetPatch → σ → Except JSError (Option Ticket) × σ
  findHistory : ObjectId → SortDirection → σ → Except JSError (List FraudHistoryEntry) × σ
  createPublisher : σ → Except JSError Unit × σ
  send : String → Message → σ → Except JSError Unit × σ
  close : σ → Except JSError Unit × σ

/-- The result of running a piece of the script: the value or the exception
thrown, the state left behind, and the effects performed, in order. -/
structure Res (σ α : Type) where
  result : Except JSError α
  state : σ
  events : List Event

/-- A piece of the script: a function of the state of the outside world. -/
def Act (σ α : Type) : Type := σ → Res σ α

namespace Act

variable {σ α β : Type}

/-- A value, no effect. -/
def ret (a : α) : Act σ α := fun s => ⟨.ok a, s, []⟩

/-- Sequencing: an exception in the first part skips the second. -/
def andThen (m : Act σ α) (f : α → Act σ β) : Act σ β := fun s =>
  match m s with
  | ⟨.ok a, s1, ev1⟩ =>
    match f a s1 with
    | ⟨r, s2, ev2⟩ => ⟨r, s2, ev1 ++ ev2⟩
  | ⟨.error e, s1, ev1⟩ => ⟨.error e, s1, ev1⟩

/-- The statement `throw e`, and every expression that throws by itself. -/
def throw (e : JSError) : Act σ α := fun s => ⟨.error e, s, []⟩

/-- An output statement (`console.log`, `console.warn`, `console.error`,
`eventStream.emit`). -/
def emit (ev : Event) : Act σ Unit := fun s => ⟨.ok (), s, [ev]⟩

/-- A call to a collaborator: the call is recorded, then answered. -/
def call (ev : Event) (f : σ → Except JSError α × σ) : Act σ α := fun s =>
  ⟨(f s).1, (f s).2, [ev]⟩

/-- The statement `try m catch (err) h err`. -/
def tryCatch (m : Act σ α) (h : JSError → Act σ α) : Act σ α := fun s =>
  match m s with
  | ⟨.ok a, s1, ev1⟩ => ⟨.ok a, s1, ev1⟩
  | ⟨.error e, s1, ev1⟩ =>
    match h e s1 with
    | ⟨r, s2, ev2⟩ => ⟨r, s2, ev1 ++ ev2⟩

/-- The statement `try m finally fin`: `fin` runs on both exits of `m`, and
an exception thrown by `fin` replaces the outcome of `m`. -/
def tryFinally (m : Act σ α) (fin : Act σ Unit) : Act σ α := fun s =>
  match m s with
  | ⟨r, s1, ev1⟩ =>
    match fin s1 with
    | ⟨.ok _, s2, ev2⟩ => ⟨r, s2, ev1 ++ ev2⟩
    | ⟨.error e, s2, ev2⟩ => ⟨.error e, s2, ev1 ++ ev2⟩

end Act

instance instMonadAct {σ : Type} : Monad (Act σ) where
  pure := Act.ret
  bind := Act.andThen

/-- The hexadecimal text of the identifier that a string of hexadecimal digits
denotes: the digits are parsed into bytes, so the letters come back in lower
case. -/
def hexText (s : String) : String := ⟨s.data.map Char.toLower⟩

/-- The expression `new ObjectId(string)`: throws on a string that is not the
text of an identifier, and otherwise gives the identifier the string denotes,
whatever the case of its letters. -/
def newObjectId {σ : Type} (E : Env σ) (s : String) : Act σ ObjectId :=
  if E.validObjectId s then Act.ret ⟨hexText s⟩
  else Act.throw ⟨"input must be a 24 character hex string, 12 byte Uint8Array, or an integer"⟩

/-- The identifier of the system actor (line 96). -/
def SYSTEM_ACTOR : String := "67196460d327c12bfe9233a4"

/-! ## `sendMessageToQueue` (index.js, lines 37-55) -/

/-- The `try` block once `pub` is set (lines 45-49), with its `catch` (line
51) and its `finally` (line 53, where `pub` is set). -/
def sendWithPublisher {σ : Type} (E : Env σ) (data : MessageData) (queue action : String) :
    Act σ Unit :=
  Act.tryFinally
    (Act.tryCatch
      (do
        let message : Message := ⟨action, data⟩
        Act.call (.send queue message) (E.send queue message)
        Act.emit (.logSent queue))
      (fun err => Act.emit (.errorSend err)))
    (Act.call .closePublisher E.close)

/-- The function `sendMessageToQueue(data, queue, action)`.  When `createPublisher` throws,
`pub` is still undefined: the `catch` logs and the `finally` closes nothing.
Otherwise the rest of the `try` runs with `pub` set. -/
def sendMessageToQueue {σ : Type} (E : Env σ) (data : MessageData) (queue action : String) :
    Act σ Unit :=
  Act.andThen
    (Act.tryCatch
      (do
        Act.call .createPublisher E.createPublisher
        Act.ret true)
      (fun err => do
        Act.emit (.errorSend err)
        Act.ret false))
    (fun pub => if pub then sendWithPublisher E data queue action else Act.ret ())

/-! ## `processCard` (index.js, lines 61-104) -/

/-- The exit that `processCard` takes.  The JavaScript function returns
`undefined` on each of them: `skippedNotFound` is the `return` of line 67,
`processed` the end of the `try` block after line 100, and `failed` the end of
the `catch` block of line 102, with the message it logged. -/
inductive ReconcileOutcome where
  | processed
  | skippedNotFound
  | failed (reason : String)
  deriving DecidableEq, Repr

/-- The `$set` document of lines 72-75, from the ticket of the first lookup. -/
def confirmationSet (ticket : Ticket) : SetPatch :=
  ⟨ticket.currentState, if ticket.currentState == "resolved" then false else ticket.isActive⟩

/-- The `try` block of `processCard` (lines 63-100). -/
def processCardBody {σ : Type} (E : Env σ) (card : String) : Act σ ReconcileOutcome := do
  Act.emit (.logProcessing card)
  let ticket ← Act.call (.findOneByCard card) (E.findOneByCard card)
  match ticket with
  | none =>
    Act.emit (.warnNotFound card)
    Act.ret .skippedNotFound
  | some ticket =>
    let oldFraud ← Act.call (.findOneById ticket._id) (E.findOneById ticket._id)
    let updated ← Act.call (.findOneAndUpdate ticket._id (confirmationSet ticket))
      (E.findOneAndUpdate ticket._id (confirmationSet ticket))
    -- line 80 reads `updatedFraud.card`: a TypeError when the update found nothing
    let updatedFraud ← match updated with
      | some u => Act.ret u
      | none => Act.throw ⟨"Cannot read properties of null (reading card)"⟩
    Act.emit (.logUpdatedCard updatedFraud.card)
    -- line 82: `find({ ticketId: ticket._id }, { sort: { date: -1 } })`
    let entries ← Act.call (.findHistory ticket._id) (E.findHistory ticket._id .descending)
    -- line 82 destructures element 0: a TypeError when the array is empty
    let responsible ← match entries with
      | entry :: _ => Act.ret entry.responsible
      | [] => Act.throw ⟨"Cannot destructure property responsible of undefined"⟩
    Act.emit (.logResponsible responsible)
    -- line 95 reads `oldFraud.currentState`: a TypeError when the re-fetch found nothing
    let isAutomaticApproval ← match oldFraud with
      | some o => Act.ret (checkIfIsAutomaticApproval o updatedFraud)
      | none => Act.throw ⟨"Cannot read properties of null (reading currentState)"⟩
    let approvedBy ←
      if responsible == "ticketProcessor" then newObjectId E SYSTEM_ACTOR
      else newObjectId E responsible
    sendMessageToQueue E
      ⟨ticket._id, updatedFraud.card, updatedFraud.currentState, updatedFraud.isActive,
        isAutomaticApproval, approvedBy, false⟩
      E.QUEUE_NAME E.QUEUE_ACTION
    Act.emit (.emitProgress card)
    Act.ret .processed

/-- The function `processCard(card, ticketFraudCol, ticketFraudHistoryCol)`: the `try`
block and the `catch` of line 101. -/
def processCard {σ : Type} (E : Env σ) (card : String) : Act σ ReconcileOutcome :=
  Act.tryCatch (processCardBody E card) (fun error => do
    Act.emit (.errorCard card error.message)
    Act.ret (.failed error.message))

/-- The cards whose processing was started (line 63) among a list of effects,
in order. -/
def started : List Event → List String
  | [] => []
  | .logProcessing card :: rest => card :: started rest
  | _ :: rest => started rest

/-! ## The loop of `main` (index.js, lines 118-123) -/

/-- The expression `Promise.all(chunk.map(card => processCard(...)))`, with the
calls of one group run to completion one after the other, in the order in
which `map` launches them.  An exception from one call rejects the whole. -/
def processChunk {σ : Type} (E : Env σ) : List String → Act σ (List ReconcileOutcome)
  | [] => Act.ret []
  | card :: rest => do
    let outcome ← processCard E card
    let outcomes ← processChunk E rest
    Act.ret (outcome :: outcomes)

/-- The loop `for (const chunk of cardChunks)` of lines 120-123. -/
def processChunks {σ : Type} (E : Env σ) : List (List String) → Act σ (List ReconcileOutcome)
  | [] => Act.ret []
  | chunk :: rest => do
    Act.emit (.logBatch chunk.length)
    let outcomes ← processChunk E chunk
    let later ← processChunks E rest
    Act.ret (outcomes ++ later)

/-- Lines 118-123 of `main`, on the list `cards` of `cards.js`: `none` when
`chunkArray` does not return. -/
def mainLoop {σ : Type} (E : Env σ) (cards : List String) (s : σ) :
    Option (Res σ (List ReconcileOutcome)) :=
  (chunkArray cards NUM_THREADS).map fun cardChunks => processChunks E cardChunks s

/-! ## A reference store and transport

The collections and the broker are collaborators outside the script.  For the
statements that depend on what an update writes and on what a later read sees,
they are taken as a sequential store touched by nobody else. -/

/-- The contents of the two collections. -/
structure Store where
  tickets : List Ticket
  history : List FraudHistoryEntry
  deriving DecidableEq, Repr

/-- Modelled from the spec: the operation (a) of section 6,
find-one-by-card-identifier, the first ticket whose `card.id` is the given
string. -/
def Store.findOneByCard (cardId : String) (st : Store) : Option Ticket :=
  st.tickets.find? fun t => t.card.id == cardId

/-- Modelled from the spec: the operation (b) of section 6,
find-one-by-internal-identifier. -/
def Store.findOneById (id : ObjectId) (st : Store) : Option Ticket :=
  st.tickets.find? fun t => t._id == id

/-- The partial-field patch applied to a ticket. -/
def Ticket.applySet (t : Ticket) (set : SetPatch) : Ticket :=
  { t with currentState := set.currentState, isActive := set.isActive }

/-- The first ticket with the given identifier, patched in place. -/
def patchFirst (id : ObjectId) (set : SetPatch) : List Ticket → List Ticket
  | [] => []
  | t :: ts => if t._id == id then t.applySet set :: ts else t :: patchFirst id set ts

/-- Modelled from the spec: the operation (c) of section 6, atomic
find-and-update-returning-post-image keyed by internal identifier with a
partial-field patch; no document when no ticket has the identifier. -/
def Store.findOneAndUpdate (id : ObjectId) (set : SetPatch) (st : Store) :
    Option Ticket × Store :=
  match st.findOneById id with
  | none => (none, st)
  | some t => (some (t.applySet set), { st with tickets := patchFirst id set st.tickets })

/-- Modelled from the spec: the operation (d) of section 6,
find-many-by-ticket-identifier with sort-by-date, descending when the script
asks for `-1` and ascending when it asks for `1`. -/
def Store.findHistory (ticketId : ObjectId) (direction : SortDirection) (st : Store) :
    List FraudHistoryEntry :=
  match direction with
  | .descending =>
    (st.history.filter fun e => e.ticketId == ticketId).insertionSort fun a b => b.date ≤ a.date
  | .ascending =>
    (st.history.filter fun e => e.ticketId == ticketId).insertionSort fun a b => a.date ≤ b.date

/-- What the transport answers to the three calls of `sendMessageToQueue`. -/
structure Transport where
  createPublisher : Except JSError Unit
  send : String → Message → Except JSError Unit
  close : Except JSError Unit

/-- The collaborators when the store is a sequential store that only this
script touches and that never throws. -/
def seqEnv (queueName queueAction : String) (validObjectId : String → Bool) (T : Transport) :
    Env Store where
  QUEUE_NAME := queueName
  QUEUE_ACTION := queueAction
  validObjectId := validObjectId
  findOneByCard := fun cardId st => (.ok (st.findOneByCard cardId), st)
  findOneById := fun id st => (.ok (st.findOneById id), st)
  findOneAndUpdate := fun id set st =>
    (.ok (st.findOneAndUpdate id set).1, (st.findOneAndUpdate id set).2)
  findHistory := fun ticketId direction st => (.ok (st.findHistory ticketId direction), st)
  createPublisher := fun st => (T.createPublisher, st)
  send := fun queue message st => (T.send queue message, st)
  close := fun st => (T.close, st)

/-! ## Example data -/

/-- A hexadecimal digit, in either case. -/
def isHexDigit (c : Char) : Bool :=
  ('0' ≤ c && c ≤ '9') || ('a' ≤ c && c ≤ 'f') || ('A' ≤ c && c ≤ 'F')

/-- The strings that `new ObjectId` accepts: 24 hexadecimal digits. -/
def exValid (s : String) : Bool := s.length == 24 && s.data.all isHexDigit

/-- A resolved ticket that is still active. -/
def ticketResolved : Ticket :=
  ⟨⟨"65f0a1b2c3d4e5f601234567"⟩, ⟨"4111"⟩, "resolved", true⟩

/-- A ticket under discussion. -/
def ticketDiscussed : Ticket :=
  ⟨⟨"65f0a1b2c3d4e5f60123abcd"⟩, ⟨"4222"⟩, "under_discussion", true⟩

/-- A ticket without any history entry. -/
def ticketOrphan : Ticket :=
  ⟨⟨"65f0a1b2c3d4e5f601239999"⟩, ⟨"4333"⟩, "new", true⟩

/-- A store with the three tickets; the latest entry of the first names the
sentinel, the only entry of the second names an actor. -/
def exStore : Store where
  tickets := [ticketResolved, ticketDiscussed, ticketOrphan]
  history :=
    [⟨ticketResolved._id, "65f0a1b2c3d4e5f6012300aa", 10⟩,
     ⟨ticketResolved._id, "ticketProcessor", 20⟩,
     ⟨ticketDiscussed._id, "65f0a1b2c3d4e5f6012300bb", 7⟩]

/-- A transport on which every call succeeds. -/
def okTransport : Transport := ⟨.ok (), fun _ _ => .ok (), .ok ()⟩

/-- A transport on which `send` gives up after its attempts. -/
def failingSend : Transport :=
  ⟨.ok (), fun _ _ => .error ⟨"max attempts exceeded"⟩, .ok ()⟩

/-- The example collaborators over the reference store. -/
def exEnv (T : Transport) : Env Store := seqEnv "fraud-queue" "reprocess" exValid T

/-- The message that `processCard` builds for the card `4111` of `exStore`. -/
def exMessage : Message :=
  ⟨"reprocess", ⟨ticketResolved._id, ⟨"4111"⟩, "resolved", false, false,
    ⟨"67196460d327c12bfe9233a4"⟩, false⟩⟩

/-- A ticket whose most recent history entry names an actor in upper case. -/
def ticketUpper : Ticket :=
  ⟨⟨"65f0a1b2c3d4e5f60123aaaa"⟩, ⟨"4444"⟩, "under_discussion", true⟩

/-- A ticket whose only history entry names an actor by a word. -/
def ticketNamed : Ticket :=
  ⟨⟨"65f0a1b2c3d4e5f60123bbbb"⟩, ⟨"4555"⟩, "new", true⟩

/-- A store with these two tickets and their history. -/
def exStoreActors : Store where
  tickets := [ticketUpper, ticketNamed]
  history :=
    [⟨ticketUpper._id, "ticketProcessor", 3⟩,
     ⟨ticketUpper._id, "65F0A1B2C3D4E5F6012300BB", 9⟩,
     ⟨ticketNamed._id, "admin", 4⟩]

/-- The message that `processCard` builds for the card `4444` of
`exStoreActors`. -/
def exMessageUpper : Message :=
  ⟨"reprocess", ⟨ticketUpper._id, ⟨"4444"⟩, "under_discussion", true, false,
    ⟨"65f0a1b2c3d4e5f6012300bb"⟩, false⟩⟩

/-! ## Lemmas on the batcher -/

theorem slice_eq_take_drop {α : Type} (array : List α) (i size : Nat) :
    slice array i (i + size) = (array.drop i).take size := by
  unfold slice
  rw [List.drop_take]
  simp

theorem chunkLoop_eq {α : Type} (array : List α) (size : Nat) (hs : 0 < size) :
    ∀ (fuel i : Nat) (result : List (List α)), array.length ≤ i + fuel →
      chunkLoop array size (fuel + 1) i result
        = some (result ++ chunksFrom size fuel (array.drop i)) := by
  intro fuel
  induction fuel with
  | zero =>
    intro i result h
    have hi : ¬ i < array.length := by omega
    simp [chunkLoop, chunksFrom, hi]
  | succ n ih =>
    intro i result h
    by_cases hi : i < array.length
    · obtain ⟨a, as, hd⟩ : ∃ a as, array.drop i = a :: as := by
        cases hd : array.drop i with
        | nil =>
          have := List.drop_eq_nil_iff.mp hd
          omega
        | cons a as => exact ⟨a, as, rfl⟩
      have hdd : array.drop (i + size) = (a :: as).drop size := by
        rw [← hd, List.drop_drop, Nat.add_comm]
      rw [chunkLoop, if_pos hi, ih (i + size) _ (by omega), slice_eq_take_drop, hd, hdd]
      simp [chunksFrom]
    · have hnil : array.drop i = [] := List.drop_eq_nil_of_le (by omega)
      rw [chunkLoop, if_neg hi, hnil]
      simp [chunksFrom]

theorem chunkArray_eq {α : Type} (array : List α) (size : Nat) (hs : 0 < size) :
    chunkArray array size = some (chunksFrom size array.length array) := by
  unfold chunkArray
  rw [chunkLoop_eq array size hs _ _ _ (by omega)]
  simp

theorem chunksFrom_flatten {α : Type} (size : Nat) (hs : 0 < size) :
    ∀ (fuel : Nat) (l : List α), l.length ≤ fuel → (chunksFrom size fuel l).flatten = l := by
  intro fuel
  induction fuel with
  | zero =>
    intro l h
    have : l = [] := List.length_eq_zero.mp (by omega)
    simp [chunksFrom, this]
  | succ n ih =>
    intro l h
    cases l with
    | nil => simp [chunksFrom]
    | cons a as =>
      simp only [chunksFrom, List.flatten_cons]
      rw [ih _ (by simp only [List.length_drop, List.length_cons] at h ⊢; omega)]
      exact List.take_append_drop size (a :: as)

theorem chunksFrom_nil {α : Type} (size fuel : Nat) :
    chunksFrom size fuel ([] : List α) = [] := by
  cases fuel <;> rfl

theorem ceil_step_small (L size : Nat) (h1 : 0 < L) (h2 : L ≤ size) :
    (L + size - 1) / size = 1 := by
  apply Nat.div_eq_of_lt_le
  · omega
  · rw [Nat.add_mul, Nat.one_mul]; omega

theorem ceil_step_large (L size : Nat) (hs : 0 < size) (h2 : size < L) :
    (L + size - 1) / size = (L - size + size - 1) / size + 1 := by
  have : L + size - 1 = (L - size + size - 1) + size := by omega
  rw [this, Nat.add_div_right _ hs]

/-- Shape of the groups: their number, the size of all but the last, the size
of the last, and the bound on every group. -/
theorem chunksFrom_shape {α : Type} (size : Nat) (hs : 0 < size) :
    ∀ (fuel : Nat) (l : List α), l.length ≤ fuel →
      (chunksFrom size fuel l).length = (l.length + size - 1) / size
      ∧ (∀ g ∈ (chunksFrom size fuel l).dropLast, g.length = size)
      ∧ (∀ g ∈ (chunksFrom size fuel l).getLast?, 1 ≤ g.length ∧ g.length ≤ size)
      ∧ (∀ g ∈ chunksFrom size fuel l, g.length ≤ size) := by
  intro fuel
  induction fuel with
  | zero =>
    intro l h
    have hl : l = [] := List.length_eq_zero.mp (by omega)
    subst hl
    refine ⟨?_, ?_, ?_, ?_⟩
    · simp only [chunksFrom, List.length_nil, Nat.zero_add]
      exact (Nat.div_eq_of_lt (by omega)).symm
    · simp [chunksFrom]
    · simp [chunksFrom]
    · simp [chunksFrom]
  | succ n ih =>
    intro l h
    cases l with
    | nil =>
      refine ⟨?_, ?_, ?_, ?_⟩
      · simp only [chunksFrom, List.length_nil, Nat.zero_add]
        exact (Nat.div_eq_of_lt (by omega)).symm
      · simp [chunksFrom]
      · simp [chunksFrom]
      · simp [chunksFrom]
    | cons a as =>
      have hlen : ((a :: as).drop size).length ≤ n := by
        simp only [List.length_drop, List.length_cons] at h ⊢; omega
      obtain ⟨ih1, ih2, ih3, ih4⟩ := ih ((a :: as).drop size) hlen
      have hunf : chunksFrom size (n + 1) (a :: as)
          = (a :: as).take size :: chunksFrom size n ((a :: as).drop size) := rfl
      by_cases hle : (a :: as).length ≤ size
      · have hnil : (a :: as).drop size = [] := List.drop_eq_nil_of_le hle
        have htake : (a :: as).take size = a :: as := List.take_of_length_le hle
        rw [hunf, hnil, chunksFrom_nil, htake]
        refine ⟨?_, ?_, ?_, ?_⟩
        · rw [ceil_step_small _ _ (by simp) hle]; rfl
        · simp
        · intro g hg
          simp only [List.getLast?_singleton, Option.mem_def, Option.some.injEq] at hg
          subst hg
          exact ⟨by simp, hle⟩
        · intro g hg
          simp only [List.mem_singleton] at hg
          subst hg
          exact hle
      · have hlt : size < (a :: as).length := by omega
        have htl : ((a :: as).take size).length = size := by
          rw [List.length_take]; omega
        have hne : chunksFrom size n ((a :: as).drop size) ≠ [] := by
          intro hnil
          rw [hnil] at ih1
          have hd : ((a :: as).drop size).length = (a :: as).length - size := List.length_drop _ _
          rw [hd] at ih1
          have h1 : size ≤ (a :: as).length - size + size - 1 := by omega
          have h2 := Nat.div_le_div_right (c := size) h1
          rw [Nat.div_self hs] at h2
          simp only [List.length_nil] at ih1
          omega
        rw [hunf]
        refine ⟨?_, ?_, ?_, ?_⟩
        · rw [List.length_cons, ih1, List.length_drop, ceil_step_large _ _ hs hlt]
        · intro g hg
          rw [List.dropLast_cons_of_ne_nil hne] at hg
          rcases List.mem_cons.mp hg with hg | hg
          · rw [hg]; exact htl
          · exact ih2 g hg
        · intro g hg
          obtain ⟨b, bs, hb⟩ := List.exists_cons_of_ne_nil hne
          rw [hb, List.getLast?_cons_cons, ← hb] at hg
          exact ih3 g hg
        · intro g hg
          rcases List.mem_cons.mp hg with hg | hg
          · rw [hg, htl]
          · exact ih4 g hg



/-! ## Lemmas on running the script -/

theorem processCard_result_ok {σ : Type} (E : Env σ) (card : String) (s : σ) :
    ∃ o, (processCard E card s).result = .ok o := by
  unfold processCard Act.tryCatch
  cases h : processCardBody E card s with
  | mk r s1 ev1 =>
    cases r with
    | ok a => exact ⟨a, rfl⟩
    | error e => exact ⟨.failed e.message, rfl⟩

/-- What `sendMessageToQueue` does, by the answers of the transport: the
publisher is created; if that throws, the error is logged and nothing else
happens; otherwise the one message is sent, the result logged, and the
publisher closed. -/
theorem sendMessageToQueue_events {σ : Type} (E : Env σ) (data : MessageData)
    (queue action : String) (s : σ) :
    ∀ e ∈ (sendMessageToQueue E data queue action s).events,
      (∀ q m, e = .send q m → q = queue ∧ m = ⟨action, data⟩)
      ∧ (∀ c, e ≠ .emitProgress c) ∧ (∀ c r, e ≠ .errorCard c r)
      ∧ (∀ c, e ≠ .warnNotFound c) := by
  rcases hc : E.createPublisher s with ⟨rc, s1⟩
  rcases hs : E.send queue ⟨action, data⟩ s1 with ⟨rs, s2⟩
  rcases hx : E.close s2 with ⟨rx, s3⟩
  rcases rc with ec | _ <;> rcases rs with es | _ <;> rcases rx with ex | _ <;>
    simp [sendMessageToQueue, sendWithPublisher, Act.tryCatch, Act.tryFinally, bind,
      Act.andThen, Act.emit, Act.call, Act.ret, hc, hs, hx]

/-- Every message that `processCard` hands to `pub.send` comes from the one
path on which the ticket, its re-fetch, its update and a history entry were
all found, and is built from them as lines 92-98 say. -/
theorem processCard_send_inv {σ : Type} (E : Env σ) (card : String) (s : σ) (q : String)
    (m : Message) (h : Event.send q m ∈ (processCard E card s).events) :
    ∃ ticket s1 o s2 u s3 entry rest s4,
      E.findOneByCard card s = (.ok (some ticket), s1)
      ∧ E.findOneById ticket._id s1 = (.ok (some o), s2)
      ∧ E.findOneAndUpdate ticket._id (confirmationSet ticket) s2 = (.ok (some u), s3)
      ∧ E.findHistory ticket._id .descending s3 = (.ok (entry :: rest), s4)
      ∧ q = E.QUEUE_NAME
      ∧ m = ⟨E.QUEUE_ACTION, ⟨ticket._id, u.card, u.currentState, u.isActive,
              checkIfIsAutomaticApproval o u,
              ⟨hexText (if entry.responsible = "ticketProcessor" then SYSTEM_ACTOR
                else entry.responsible)⟩, false⟩⟩
      ∧ E.validObjectId (if entry.responsible = "ticketProcessor" then SYSTEM_ACTOR
          else entry.responsible) = true := by
  rcases h1 : E.findOneByCard card s with ⟨r1, s1⟩
  rcases r1 with e1 | t1
  · simp [processCard, processCardBody, Act.tryCatch, bind, Act.andThen, Act.emit, Act.call,
      Act.ret, Act.throw, h1] at h
  rcases t1 with _ | ticket
  · simp [processCard, processCardBody, Act.tryCatch, bind, Act.andThen, Act.emit, Act.call,
      Act.ret, Act.throw, h1] at h
  rcases h2 : E.findOneById ticket._id s1 with ⟨r2, s2⟩
  rcases r2 with e2 | o2
  · simp [processCard, processCardBody, Act.tryCatch, bind, Act.andThen, Act.emit, Act.call,
      Act.ret, Act.throw, h1, h2] at h
  rcases h3 : E.findOneAndUpdate ticket._id (confirmationSet ticket) s2 with ⟨r3, s3⟩
  rcases r3 with e3 | u3
  · simp [processCard, processCardBody, Act.tryCatch, bind, Act.andThen, Act.emit, Act.call,
      Act.ret, Act.throw, h1, h2, h3] at h
  rcases u3 with _ | u
  · simp [processCard, processCardBody, Act.tryCatch, bind, Act.andThen, Act.emit, Act.call,
      Act.ret, Act.throw, h1, h2, h3] at h
  rcases h4 : E.findHistory ticket._id .descending s3 with ⟨r4, s4⟩
  rcases r4 with e4 | entries
  · simp [processCard, processCardBody, Act.tryCatch, bind, Act.andThen, Act.emit, Act.call,
      Act.ret, Act.throw, h1, h2, h3, h4] at h
  rcases entries with _ | ⟨entry, rest⟩
  · simp [processCard, processCardBody, Act.tryCatch, bind, Act.andThen, Act.emit, Act.call,
      Act.ret, Act.throw, h1, h2, h3, h4] at h
  rcases o2 with _ | o
  · simp [processCard, processCardBody, Act.tryCatch, bind, Act.andThen, Act.emit, Act.call,
      Act.ret, Act.throw, h1, h2, h3, h4] at h
  refine ⟨ticket, s1, o, s2, u, s3, entry, rest, s4, rfl, h2, h3, h4, ?_⟩
  by_cases hr : entry.responsible = "ticketProcessor"
  · by_cases hv : E.validObjectId SYSTEM_ACTOR = true
    · rcases hS : sendMessageToQueue E ⟨ticket._id, u.card, u.currentState, u.isActive,
          checkIfIsAutomaticApproval o u, ⟨hexText SYSTEM_ACTOR⟩, false⟩ E.QUEUE_NAME E.QUEUE_ACTION s4
        with ⟨rS, s5, evS⟩
      have hev := sendMessageToQueue_events E ⟨ticket._id, u.card, u.currentState, u.isActive,
          checkIfIsAutomaticApproval o u, ⟨hexText SYSTEM_ACTOR⟩, false⟩ E.QUEUE_NAME E.QUEUE_ACTION s4
      rw [hS] at hev
      rcases rS with eS | _ <;>
        simp [processCard, processCardBody, Act.tryCatch, bind, Act.andThen, Act.emit, Act.call,
          Act.ret, Act.throw, newObjectId, h1, h2, h3, h4, hr, hv, hS] at h <;>
        simpa [hr, hv] using (hev _ h).1 q m rfl
    · simp [processCard, processCardBody, Act.tryCatch, bind, Act.andThen, Act.emit, Act.call,
        Act.ret, Act.throw, newObjectId, h1, h2, h3, h4, hr, hv] at h
  · by_cases hv : E.validObjectId entry.responsible = true
    · rcases hS : sendMessageToQueue E ⟨ticket._id, u.card, u.currentState, u.isActive,
          checkIfIsAutomaticApproval o u, ⟨hexText entry.responsible⟩, false⟩ E.QUEUE_NAME
          E.QUEUE_ACTION s4
        with ⟨rS, s5, evS⟩
      have hev := sendMessageToQueue_events E ⟨ticket._id, u.card, u.currentState, u.isActive,
          checkIfIsAutomaticApproval o u, ⟨hexText entry.responsible⟩, false⟩ E.QUEUE_NAME
          E.QUEUE_ACTION s4
      rw [hS] at hev
      rcases rS with eS | _ <;>
        simp [processCard, processCardBody, Act.tryCatch, bind, Act.andThen, Act.emit, Act.call,
          Act.ret, Act.throw, newObjectId, h1, h2, h3, h4, hr, hv, hS] at h <;>
        simpa [hr, hv] using (hev _ h).1 q m rfl
    · simp [processCard, processCardBody, Act.tryCatch, bind, Act.andThen, Act.emit, Act.call,
        Act.ret, Act.throw, newObjectId, h1, h2, h3, h4, hr, hv] at h

theorem started_append (xs ys : List Event) : started (xs ++ ys) = started xs ++ started ys := by
  induction xs with
  | nil => rfl
  | cons x xs ih => cases x <;> simp [started, ih]

theorem started_sendMessageToQueue {σ : Type} (E : Env σ) (data : MessageData)
    (queue action : String) (s : σ) :
    started (sendMessageToQueue E data queue action s).events = [] := by
  rcases hc : E.createPublisher s with ⟨rc, s1⟩
  rcases hs : E.send queue ⟨action, data⟩ s1 with ⟨rs, s2⟩
  rcases hx : E.close s2 with ⟨rx, s3⟩
  rcases rc with ec | _ <;> rcases rs with es | _ <;> rcases rx with ex | _ <;>
    simp [sendMessageToQueue, sendWithPublisher, Act.tryCatch, Act.tryFinally, bind,
      Act.andThen, Act.emit, Act.call, Act.ret, hc, hs, hx, started]

/-- Line 63 runs once in every call of `processCard`, whatever happens next. -/
theorem started_processCard {σ : Type} (E : Env σ) (card : String) (s : σ) :
    started (processCard E card s).events = [card] := by
  rcases h1 : E.findOneByCard card s with ⟨r1, s1⟩
  rcases r1 with e1 | t1
  · simp [processCard, processCardBody, Act.tryCatch, bind, Act.andThen, Act.emit, Act.call,
      Act.ret, Act.throw, h1, started]
  rcases t1 with _ | ticket
  · simp [processCard, processCardBody, Act.tryCatch, bind, Act.andThen, Act.emit, Act.call,
      Act.ret, Act.throw, h1, started]
  rcases h2 : E.findOneById ticket._id s1 with ⟨r2, s2⟩
  rcases r2 with e2 | o2
  · simp [processCard, processCardBody, Act.tryCatch, bind, Act.andThen, Act.emit, Act.call,
      Act.ret, Act.throw, h1, h2, started]
  rcases h3 : E.findOneAndUpdate ticket._id (confirmationSet ticket) s2 with ⟨r3, s3⟩
  rcases r3 with e3 | u3
  · simp [processCard, processCardBody, Act.tryCatch, bind, Act.andThen, Act.emit, Act.call,
      Act.ret, Act.throw, h1, h2, h3, started]
  rcases u3 with _ | u
  · simp [processCard, processCardBody, Act.tryCatch, bind, Act.andThen, Act.emit, Act.call,
      Act.ret, Act.throw, h1, h2, h3, started]
  rcases h4 : E.findHistory ticket._id .descending s3 with ⟨r4, s4⟩
  rcases r4 with e4 | entries
  · simp [processCard, processCardBody, Act.tryCatch, bind, Act.andThen, Act.emit, Act.call,
      Act.ret, Act.throw, h1, h2, h3, h4, started]
  rcases entries with _ | ⟨entry, rest⟩
  · simp [processCard, processCardBody, Act.tryCatch, bind, Act.andThen, Act.emit, Act.call,
      Act.ret, Act.throw, h1, h2, h3, h4, started]
  rcases o2 with _ | o
  · simp [processCard, processCardBody, Act.tryCatch, bind, Act.andThen, Act.emit, Act.call,
      Act.ret, Act.throw, h1, h2, h3, h4, started]
  by_cases hr : entry.responsible = "ticketProcessor"
  · by_cases hv : E.validObjectId SYSTEM_ACTOR = true
    · have hst := started_sendMessageToQueue E ⟨ticket._id, u.card, u.currentState, u.isActive,
          checkIfIsAutomaticApproval o u, ⟨hexText SYSTEM_ACTOR⟩, false⟩ E.QUEUE_NAME E.QUEUE_ACTION s4
      rcases hS : sendMessageToQueue E ⟨ticket._id, u.card, u.currentState, u.isActive,
          checkIfIsAutomaticApproval o u, ⟨hexText SYSTEM_ACTOR⟩, false⟩ E.QUEUE_NAME E.QUEUE_ACTION s4
        with ⟨rS, s5, evS⟩
      rw [hS] at hst
      rcases rS with eS | _ <;>
        simp [processCard, processCardBody, Act.tryCatch, bind, Act.andThen, Act.emit, Act.call,
          Act.ret, Act.throw, newObjectId, h1, h2, h3, h4, hr, hv, hS, started,
          started_append] <;>
        simpa using hst
    · simp [processCard, processCardBody, Act.tryCatch, bind, Act.andThen, Act.emit, Act.call,
        Act.ret, Act.throw, newObjectId, h1, h2, h3, h4, hr, hv, started]
  · by_cases hv : E.validObjectId entry.responsible = true
    · have hst := started_sendMessageToQueue E ⟨ticket._id, u.card, u.currentState, u.isActive,
          checkIfIsAutomaticApproval o u, ⟨hexText entry.responsible⟩, false⟩ E.QUEUE_NAME
          E.QUEUE_ACTION s4
      rcases hS : sendMessageToQueue E ⟨ticket._id, u.card, u.currentState, u.isActive,
          checkIfIsAutomaticApproval o u, ⟨hexText entry.responsible⟩, false⟩ E.QUEUE_NAME
          E.QUEUE_ACTION s4
        with ⟨rS, s5, evS⟩
      rw [hS] at hst
      rcases rS with eS | _ <;>
        simp [processCard, processCardBody, Act.tryCatch, bind, Act.andThen, Act.emit, Act.call,
          Act.ret, Act.throw, newObjectId, h1, h2, h3, h4, hr, hv, hS, started,
          started_append] <;>
        simpa using hst
    · simp [processCard, processCardBody, Act.tryCatch, bind, Act.andThen, Act.emit, Act.call,
        Act.ret, Act.throw, newObjectId, h1, h2, h3, h4, hr, hv, started]

theorem processChunk_ok {σ : Type} (E : Env σ) :
    ∀ (chunk : List String) (s : σ), ∃ outcomes,
      (processChunk E chunk s).result = .ok outcomes
      ∧ outcomes.length = chunk.length
      ∧ started (processChunk E chunk s).events = chunk := by
  intro chunk
  induction chunk with
  | nil => intro s; exact ⟨[], rfl, rfl, rfl⟩
  | cons card rest ih =>
    intro s
    obtain ⟨o, ho⟩ := processCard_result_ok E card s
    have hst := started_processCard E card s
    rcases hP : processCard E card s with ⟨r, s1, ev1⟩
    rw [hP] at ho hst
    simp only at ho hst
    subst ho
    obtain ⟨os, h1, h2, h3⟩ := ih s1
    rcases hR : processChunk E rest s1 with ⟨r2, s2, ev2⟩
    rw [hR] at h1 h3
    simp only at h1 h3
    subst h1
    refine ⟨o :: os, ?_, ?_, ?_⟩
    · simp [processChunk, bind, Act.andThen, Act.ret, hP, hR]
    · simp [h2]
    · simp [processChunk, bind, Act.andThen, Act.ret, hP, hR, started_append, hst, h3]

theorem processChunks_ok {σ : Type} (E : Env σ) :
    ∀ (chunks : List (List String)) (s : σ), ∃ outcomes,
      (processChunks E chunks s).result = .ok outcomes
      ∧ outcomes.length = chunks.flatten.length
      ∧ started (processChunks E chunks s).events = chunks.flatten := by
  intro chunks
  induction chunks with
  | nil => intro s; exact ⟨[], rfl, rfl, rfl⟩
  | cons chunk rest ih =>
    intro s
    obtain ⟨os, h1, h2, h3⟩ := processChunk_ok E chunk s
    rcases hP : processChunk E chunk s with ⟨r, s1, ev1⟩
    rw [hP] at h1 h3
    simp only at h1 h3
    subst h1
    obtain ⟨os2, g1, g2, g3⟩ := ih s1
    rcases hR : processChunks E rest s1 with ⟨r2, s2, ev2⟩
    rw [hR] at g1 g3
    simp only at g1 g3
    subst g1
    refine ⟨os ++ os2, ?_, ?_, ?_⟩
    · simp [processChunks, bind, Act.andThen, Act.ret, Act.emit, hP, hR]
    · simp [h2, g2]
    · simp [processChunks, bind, Act.andThen, Act.ret, Act.emit, hP, hR, started_append,
        started, h3, g3]

/-! ## Lemmas on the reference store -/

theorem findOneByCard_mem (cardId : String) (st : Store) (t : Ticket)
    (h : st.findOneByCard cardId = some t) : t ∈ st.tickets :=
  List.mem_of_find?_eq_some h

theorem find_by_id_of_mem :
    ∀ (ts : List Ticket), (ts.map fun t => t._id).Nodup → ∀ t ∈ ts,
      ts.find? (fun x => x._id == t._id) = some t := by
  intro ts
  induction ts with
  | nil => intro _ t ht; cases ht
  | cons a as ih =>
    intro hnd t ht
    rw [List.map_cons, List.nodup_cons] at hnd
    rcases List.mem_cons.mp ht with rfl | hmem
    · simp
    · have hne : a._id ≠ t._id := by
        intro heq
        exact hnd.1 (heq ▸ List.mem_map_of_mem (fun t => t._id) hmem)
      rw [List.find?_cons_of_neg _ (by simpa using hne)]
      exact ih hnd.2 t hmem

/-- In a store keyed by `_id`, the re-fetch of line 70 returns the ticket of
the first lookup. -/
theorem findOneById_of_findOneByCard (st : Store) (hkey : (st.tickets.map fun t => t._id).Nodup)
    (cardId : String) (t : Ticket) (h : st.findOneByCard cardId = some t) :
    st.findOneById t._id = some t :=
  find_by_id_of_mem st.tickets hkey t (findOneByCard_mem cardId st t h)

theorem findOneAndUpdate_some (st : Store) (id : ObjectId) (set : SetPatch) (u : Ticket)
    (h : (st.findOneAndUpdate id set).1 = some u) :
    u.currentState = set.currentState ∧ u.isActive = set.isActive := by
  unfold Store.findOneAndUpdate at h
  cases hf : st.findOneById id with
  | none => simp [hf] at h
  | some t =>
    simp only [hf, Option.some.injEq] at h
    subst h
    exact ⟨rfl, rfl⟩

/-- The reference store returns from an update the document with the fields
that were set. -/
theorem seqEnv_update_isActive (queueName queueAction : String) (validObjectId : String → Bool)
    (T : Transport) (id : ObjectId) (set : SetPatch) (s : Store) (u : Ticket) (s1 : Store)
    (h : (seqEnv queueName queueAction validObjectId T).findOneAndUpdate id set s
      = (.ok (some u), s1)) :
    u.isActive = set.isActive := by
  simp only [seqEnv, Prod.mk.injEq, Except.ok.injEq] at h
  exact (findOneAndUpdate_some s id set u h.1).2

theorem findOneAndUpdate_history (st : Store) (id : ObjectId) (set : SetPatch) :
    (st.findOneAndUpdate id set).2.history = st.history := by
  unfold Store.findOneAndUpdate
  cases st.findOneById id <;> rfl

theorem findHistory_findOneAndUpdate (st : Store) (id ticketId : ObjectId) (set : SetPatch)
    (direction : SortDirection) :
    (st.findOneAndUpdate id set).2.findHistory ticketId direction
      = st.findHistory ticketId direction := by
  unfold Store.findHistory
  rw [findOneAndUpdate_history]

/-- The first entry that the store returns for the query of line 82 is an
entry of the ticket, and no entry of the ticket is more recent. -/
theorem findHistory_descending_head (st : Store) (ticketId : ObjectId)
    (entry : FraudHistoryEntry) (rest : List FraudHistoryEntry)
    (h : st.findHistory ticketId .descending = entry :: rest) :
    entry ∈ st.history ∧ entry.ticketId = ticketId
      ∧ ∀ e ∈ st.history, e.ticketId = ticketId → e.date ≤ entry.date := by
  haveI : IsTotal FraudHistoryEntry (fun a b => b.date ≤ a.date) :=
    ⟨fun a b => Nat.le_total b.date a.date⟩
  haveI : IsTrans FraudHistoryEntry (fun a b => b.date ≤ a.date) :=
    ⟨fun _ _ _ hab hbc => Nat.le_trans hbc hab⟩
  have hsorted := List.sorted_insertionSort (fun a b : FraudHistoryEntry => b.date ≤ a.date)
    (st.history.filter fun e => e.ticketId == ticketId)
  have hperm := List.perm_insertionSort (fun a b : FraudHistoryEntry => b.date ≤ a.date)
    (st.history.filter fun e => e.ticketId == ticketId)
  simp only [Store.findHistory] at h
  rw [h] at hsorted hperm
  have hmem : entry ∈ st.history.filter fun e => e.ticketId == ticketId :=
    hperm.subset (List.mem_cons_self _ _)
  rw [List.mem_filter] at hmem
  refine ⟨hmem.1, by simpa using hmem.2, ?_⟩
  intro e he hid
  have he2 : e ∈ st.history.filter fun e => e.ticketId == ticketId :=
    List.mem_filter.mpr ⟨he, by simpa using hid⟩
  rcases List.mem_cons.mp (hperm.symm.subset he2) with rfl | hrest
  · exact Nat.le_refl _
  · exact List.rel_of_sorted_cons hsorted e hrest

/-- When `new ObjectId` rejects the `responsible` of the first entry returned,
the exception is caught at line 101 and nothing is sent. -/
theorem processCard_rejected_responsible {σ : Type} (E : Env σ) (card : String)
    (s s1 s2 s3 s4 : σ) (ticket : Ticket) (r2 r3 : Except JSError (Option Ticket))
    (entry : FraudHistoryEntry) (rest : List FraudHistoryEntry)
    (h1 : E.findOneByCard card s = (.ok (some ticket), s1))
    (h2 : E.findOneById ticket._id s1 = (r2, s2))
    (h3 : E.findOneAndUpdate ticket._id (confirmationSet ticket) s2 = (r3, s3))
    (h4 : E.findHistory ticket._id .descending s3 = (.ok (entry :: rest), s4))
    (hr : entry.responsible ≠ "ticketProcessor")
    (hv : E.validObjectId entry.responsible = false) :
    (∃ reason, (processCard E card s).result = .ok (.failed reason))
      ∧ ∀ e ∈ (processCard E card s).events, ∀ q m, e ≠ .send q m := by
  rcases r2 with e2 | o2
  · simp [processCard, processCardBody, Act.tryCatch, bind, Act.andThen, Act.emit, Act.call,
      Act.ret, Act.throw, h1, h2]
  · rcases r3 with e3 | u3
    · simp [processCard, processCardBody, Act.tryCatch, bind, Act.andThen, Act.emit, Act.call,
        Act.ret, Act.throw, h1, h2, h3]
    · rcases u3 with _ | u
      · simp [processCard, processCardBody, Act.tryCatch, bind, Act.andThen, Act.emit, Act.call,
          Act.ret, Act.throw, h1, h2, h3]
      · rcases o2 with _ | o
        · simp [processCard, processCardBody, Act.tryCatch, bind, Act.andThen, Act.emit,
            Act.call, Act.ret, Act.throw, h1, h2, h3, h4]
        · simp [processCard, processCardBody, Act.tryCatch, bind, Act.andThen, Act.emit,
            Act.call, Act.ret, Act.throw, newObjectId, h1, h2, h3, h4, hr, hv]

/-! ## The batcher: claims -/

/-- C1: for every list `items` (non-empty or not) and every positive `size`,
`chunkArray items size` returns, and the groups it returns, concatenated in
order, are `items` itself: same elements, same order, nothing twice, nothing
lost. -/
theorem chunkArray_concat {α : Type} (items : List α) (size : Nat) (hs : 0 < size) :
    ∃ groups, chunkArray items size = some groups ∧ groups.flatten = items :=
  ⟨chunksFrom size items.length items, chunkArray_eq items size hs,
    chunksFrom_flatten size hs items.length items (Nat.le_refl _)⟩

theorem chunkArray_concat_witness :
    0 < 2 ∧ ∃ groups, chunkArray [10, 20, 30, 40, 50] 2 = some groups
      ∧ groups.flatten = [10, 20, 30, 40, 50] :=
  ⟨by decide, chunkArray_concat [10, 20, 30, 40, 50] 2 (by decide)⟩

/-- C8: for every list of `n` cards and every positive group size `s`,
`chunkArray` returns exactly `ceil (n / s)` groups; every group but the last
has exactly `s` elements; the last group has between 1 and `s` elements; so no
group, and no batch that `main` launches from a group, has more than `s`
cards.  With 250 cards and `s = 100` the sizes are 100, 100, 50, which sum to
250. -/
theorem chunkArray_groups {α : Type} (cards : List α) (s : Nat) (hs : 0 < s) :
    ∃ groups, chunkArray cards s = some groups
      ∧ groups.length = (cards.length + s - 1) / s
      ∧ (∀ g ∈ groups.dropLast, g.length = s)
      ∧ (∀ g ∈ groups.getLast?, 1 ≤ g.length ∧ g.length ≤ s)
      ∧ (∀ g ∈ groups, g.length ≤ s)
      ∧ (cards.length = 250 → s = 100 →
          groups.map List.length = [100, 100, 50] ∧ (groups.map List.length).sum = 250) := by
  obtain ⟨h1, h2, h3, h4⟩ := chunksFrom_shape s hs cards.length cards (Nat.le_refl _)
  have hfl := chunksFrom_flatten s hs cards.length cards (Nat.le_refl _)
  refine ⟨chunksFrom s cards.length cards, chunkArray_eq cards s hs, h1, h2, h3, h4, ?_⟩
  intro hn hs100
  subst hs100
  have hlen : (chunksFrom 100 cards.length cards).length = 3 := by rw [h1, hn]
  have hsum : ((chunksFrom 100 cards.length cards).map List.length).sum = 250 := by
    rw [← List.length_flatten, hfl, hn]
  rcases hg : chunksFrom 100 cards.length cards with _ | ⟨a, _ | ⟨b, _ | ⟨c, _ | ⟨d, r⟩⟩⟩⟩
  · rw [hg] at hlen; simp at hlen
  · rw [hg] at hlen; simp at hlen
  · rw [hg] at hlen; simp at hlen
  · rw [hg] at h2 hsum
    have ha : a.length = 100 := h2 a (by simp)
    have hb : b.length = 100 := h2 b (by simp)
    simp only [List.map_cons, List.map_nil, List.sum_cons, List.sum_nil] at hsum ⊢
    have hc : c.length = 50 := by omega
    rw [ha, hb, hc]
    exact ⟨rfl, rfl⟩
  · rw [hg] at hlen; simp at hlen

theorem chunkArray_groups_witness :
    0 < 3 ∧ ∃ groups, chunkArray [1, 2, 3, 4, 5, 6, 7] 3 = some groups
      ∧ groups.length = ([1, 2, 3, 4, 5, 6, 7].length + 3 - 1) / 3
      ∧ (∀ g ∈ groups.dropLast, g.length = 3)
      ∧ (∀ g ∈ groups.getLast?, 1 ≤ g.length ∧ g.length ≤ 3)
      ∧ (∀ g ∈ groups, g.length ≤ 3)
      ∧ ([1, 2, 3, 4, 5, 6, 7].length = 250 → 3 = 100 →
          groups.map List.length = [100, 100, 50] ∧ (groups.map List.length).sum = 250) :=
  ⟨by decide, chunkArray_groups [1, 2, 3, 4, 5, 6, 7] 3 (by decide)⟩

/-! ## The classifier: claims -/

/-- C2: `checkIfIsAutomaticApproval previous updated` is true exactly when
`previous.currentState` is `new` or `quarantine` and `updated.currentState` is
`under_discussion`; it is false for `under_discussion` on both sides, and
false whenever either state is `resolved`. -/
theorem checkIfIsAutomaticApproval_iff (previous updated : Ticket) :
    (checkIfIsAutomaticApproval previous updated = true
      ↔ (previous.currentState = "new" ∨ previous.currentState = "quarantine")
          ∧ updated.currentState = "under_discussion")
    ∧ checkIfIsAutomaticApproval { previous with currentState := "under_discussion" }
        { updated with currentState := "under_discussion" } = false
    ∧ checkIfIsAutomaticApproval { previous with currentState := "resolved" } updated = false
    ∧ checkIfIsAutomaticApproval previous { updated with currentState := "resolved" } = false := by
  refine ⟨?_, ?_, ?_, ?_⟩
  · simp [checkIfIsAutomaticApproval]
  · simp [checkIfIsAutomaticApproval]
  · simp [checkIfIsAutomaticApproval]
  · simp [checkIfIsAutomaticApproval]

/-! ## `processCard`: claims -/

/-- C7: for every card for which the first lookup finds no ticket,
`processCard` takes the `skippedNotFound` exit, and all it does is log the
card, make that one lookup and warn: no re-fetch, no update, no history
lookup, no call of the transport, no completion message. -/
theorem processCard_absent {σ : Type} (E : Env σ) (card : String) (s s1 : σ)
    (h : E.findOneByCard card s = (.ok none, s1)) :
    (processCard E card s).result = .ok .skippedNotFound
      ∧ (processCard E card s).state = s1
      ∧ (processCard E card s).events
          = [.logProcessing card, .findOneByCard card, .warnNotFound card] := by
  simp [processCard, processCardBody, Act.tryCatch, bind, Act.andThen, Act.emit, Act.call,
    Act.ret, h]

theorem processCard_absent_witness :
    (exEnv okTransport).findOneByCard "4999" exStore = (.ok none, exStore)
      ∧ (processCard (exEnv okTransport) "4999" exStore).result = .ok .skippedNotFound
      ∧ (processCard (exEnv okTransport) "4999" exStore).state = exStore
      ∧ (processCard (exEnv okTransport) "4999" exStore).events
          = [.logProcessing "4999", .findOneByCard "4999", .warnNotFound "4999"] :=
  ⟨rfl, processCard_absent (exEnv okTransport) "4999" exStore exStore rfl⟩

/-- C6: for every ticket found by the first lookup whose history lookup
answers with the empty array, whatever the re-fetch and the update did,
`processCard` takes the `failed` exit: the error is logged for that card, and
there is no publisher, no `send`, no completion message and no not-found
warning. -/
theorem processCard_zero_history {σ : Type} (E : Env σ) (card : String) (s s1 s2 s3 : σ)
    (ticket : Ticket) (r2 r3 : Except JSError (Option Ticket))
    (h1 : E.findOneByCard card s = (.ok (some ticket), s1))
    (h2 : E.findOneById ticket._id s1 = (r2, s2))
    (h3 : E.findOneAndUpdate ticket._id (confirmationSet ticket) s2 = (r3, s3))
    (h4 : (E.findHistory ticket._id .descending s3).1 = .ok []) :
    ∃ reason, (processCard E card s).result = .ok (.failed reason)
      ∧ Event.errorCard card reason ∈ (processCard E card s).events
      ∧ (∀ e ∈ (processCard E card s).events,
          e ≠ .createPublisher ∧ (∀ q m, e ≠ .send q m) ∧ (∀ c, e ≠ .emitProgress c)
            ∧ (∀ c, e ≠ .warnNotFound c)) := by
  rcases h5 : E.findHistory ticket._id .descending s3 with ⟨r4, s4⟩
  rw [h5] at h4
  simp only at h4
  subst h4
  rcases r2 with e2 | o2
  · simp [processCard, processCardBody, Act.tryCatch, bind, Act.andThen, Act.emit, Act.call,
      Act.ret, Act.throw, h1, h2]
  · rcases r3 with e3 | u3
    · simp [processCard, processCardBody, Act.tryCatch, bind, Act.andThen, Act.emit, Act.call,
        Act.ret, Act.throw, h1, h2, h3]
    · rcases u3 with _ | u
      · simp [processCard, processCardBody, Act.tryCatch, bind, Act.andThen, Act.emit, Act.call,
          Act.ret, Act.throw, h1, h2, h3]
      · simp [processCard, processCardBody, Act.tryCatch, bind, Act.andThen, Act.emit, Act.call,
          Act.ret, Act.throw, h1, h2, h3, h5]

theorem processCard_zero_history_witness :
    ∃ reason, (processCard (exEnv okTransport) "4333" exStore).result = .ok (.failed reason)
      ∧ Event.errorCard "4333" reason ∈ (processCard (exEnv okTransport) "4333" exStore).events
      ∧ (∀ e ∈ (processCard (exEnv okTransport) "4333" exStore).events,
          e ≠ .createPublisher ∧ (∀ q m, e ≠ .send q m) ∧ (∀ c, e ≠ .emitProgress c)
            ∧ (∀ c, e ≠ .warnNotFound c)) :=
  processCard_zero_history (exEnv okTransport) "4333" exStore exStore exStore
    (exStore.findOneAndUpdate ticketOrphan._id (confirmationSet ticketOrphan)).2
    ticketOrphan (.ok (some ticketOrphan))
    (.ok (exStore.findOneAndUpdate ticketOrphan._id (confirmationSet ticketOrphan)).1)
    rfl rfl rfl rfl

/-- C9: `processCard` never raises: whatever the collaborators answer or
throw at any step, the call completes with one of its three exits, and an
exception of the `try` block becomes the `failed` exit with the error logged
for the card.  Hence the loop of `main`, with the calls of a group run in
launch order, completes too, with one outcome for every card and every card
started, in the order of the list. -/
theorem processCard_never_raises {σ : Type} (E : Env σ) :
    (∀ card s, ∃ outcome, (processCard E card s).result = .ok outcome)
    ∧ (∀ card s e, (processCardBody E card s).result = .error e →
        (processCard E card s).result = .ok (.failed e.message)
          ∧ Event.errorCard card e.message ∈ (processCard E card s).events)
    ∧ (∀ cards s, ∃ run outcomes, mainLoop E cards s = some run
        ∧ run.result = .ok outcomes
        ∧ outcomes.length = cards.length
        ∧ started run.events = cards) := by
  refine ⟨processCard_result_ok E, ?_, ?_⟩
  · intro card s e he
    unfold processCard Act.tryCatch
    rcases hb : processCardBody E card s with ⟨r, s1, ev1⟩
    rw [hb] at he
    simp only at he
    subst he
    simp [bind, Act.andThen, Act.emit, Act.ret]
  · intro cards s
    obtain ⟨groups, hg, hfl⟩ : ∃ groups, chunkArray cards NUM_THREADS = some groups
        ∧ groups.flatten = cards :=
      ⟨_, chunkArray_eq cards NUM_THREADS (by decide),
        chunksFrom_flatten NUM_THREADS (by decide) cards.length cards (Nat.le_refl _)⟩
    obtain ⟨outcomes, h1, h2, h3⟩ := processChunks_ok E groups s
    refine ⟨processChunks E groups s, outcomes, ?_, h1, ?_, ?_⟩
    · simp [mainLoop, hg]
    · rw [h2, hfl]
    · rw [h3, hfl]

/-- C5: when the update returns the document with the fields it has set, every
message that `processCard` hands to `pub.send` for a ticket found in state
`resolved` has `isActive = false`, whatever the ticket's `isActive` was; for a
ticket found in any other state the message has the `isActive` of the ticket
as found. -/
theorem processCard_isActive {σ : Type} (E : Env σ)
    (hE : ∀ id set s u s1, E.findOneAndUpdate id set s = (.ok (some u), s1) →
      u.isActive = set.isActive)
    (card : String) (s s1 : σ) (ticket : Ticket)
    (h1 : E.findOneByCard card s = (.ok (some ticket), s1))
    (q : String) (m : Message) (h : Event.send q m ∈ (processCard E card s).events) :
    (ticket.currentState = "resolved" → m.data.isActive = false)
      ∧ (ticket.currentState ≠ "resolved" → m.data.isActive = ticket.isActive) := by
  obtain ⟨ticket1, s1a, o, s2, u, s3, entry, rest, s4, g1, _, g3, _, _, hm, _⟩ :=
    processCard_send_inv E card s q m h
  rw [h1] at g1
  simp only [Prod.mk.injEq, Except.ok.injEq, Option.some.injEq] at g1
  obtain ⟨ht, _⟩ := g1
  subst ht
  have hu := hE _ _ _ _ _ g3
  rw [hm]
  simp only [hu, confirmationSet]
  constructor
  · intro hr
    simp [hr]
  · intro hr
    simp [hr]

/-- C10: in a store keyed by `_id` that only this call touches, the re-fetch
of line 70 and the update of line 71 both find the ticket of the first lookup,
the snapshot before and the snapshot after the update have the same
`currentState`, and every message that `processCard` hands to `pub.send` has
`isAutomaticApproval = false`, whatever the state of the ticket. -/
theorem processCard_isAutomaticApproval_false (queueName queueAction : String)
    (validObjectId : String → Bool) (T : Transport) (st : Store) (card : String)
    (hkey : (st.tickets.map fun t => t._id).Nodup) :
    (∀ ticket, st.findOneByCard card = some ticket →
      ∃ previous updated st1,
        st.findOneById ticket._id = some previous
        ∧ st.findOneAndUpdate ticket._id (confirmationSet ticket) = (some updated, st1)
        ∧ previous.currentState = updated.currentState)
    ∧ (∀ q m,
        Event.send q m
          ∈ (processCard (seqEnv queueName queueAction validObjectId T) card st).events →
        m.data.isAutomaticApproval = false) := by
  constructor
  · intro ticket ht
    have hf := findOneById_of_findOneByCard st hkey card ticket ht
    refine ⟨ticket, ticket.applySet (confirmationSet ticket),
      { st with tickets := patchFirst ticket._id (confirmationSet ticket) st.tickets }, hf, ?_, rfl⟩
    simp [Store.findOneAndUpdate, hf]
  · intro q m h
    obtain ⟨ticket, s1, o, s2, u, s3, entry, rest, s4, g1, g2, g3, _, _, hm, _⟩ :=
      processCard_send_inv _ card st q m h
    simp only [seqEnv, Prod.mk.injEq, Except.ok.injEq] at g1 g2 g3
    obtain ⟨g1, rfl⟩ := g1
    obtain ⟨g2, rfl⟩ := g2
    have hf := findOneById_of_findOneByCard st hkey card ticket g1
    rw [hf] at g2
    simp only [Option.some.injEq] at g2
    subst g2
    have hu := (findOneAndUpdate_some st _ _ u g3.1).1
    rw [hm]
    simp only [checkIfIsAutomaticApproval, hu, confirmationSet]
    by_cases hn : ticket.currentState = "new"
    · simp [hn]
    · by_cases hq : ticket.currentState = "quarantine"
      · simp [hq]
      · simp [hn, hq]

/-- C3, evaluated on an example: the ticket and its history exist and `send`
throws; `sendMessageToQueue` logs the error and returns, and `processCard`
takes the `processed` exit, emits the completion message, and logs no error
for the card. -/
theorem processCard_send_failure :
    (processCard (exEnv failingSend) "4222" exStore).result = .ok .processed
      ∧ (processCard (exEnv failingSend) "4222" exStore).events
          = [.logProcessing "4222",
             .findOneByCard "4222",
             .findOneById ticketDiscussed._id,
             .findOneAndUpdate ticketDiscussed._id ⟨"under_discussion", true⟩,
             .logUpdatedCard ⟨"4222"⟩,
             .findHistory ticketDiscussed._id,
             .logResponsible "65f0a1b2c3d4e5f6012300bb",
             .createPublisher,
             .send "fraud-queue"
               ⟨"reprocess", ⟨ticketDiscussed._id, ⟨"4222"⟩, "under_discussion", true, false,
                 ⟨"65f0a1b2c3d4e5f6012300bb"⟩, false⟩⟩,
             .errorSend ⟨"max attempts exceeded"⟩,
             .closePublisher,
             .emitProgress "4222"] :=
  ⟨rfl, by decide⟩

/-! ## Instances on the example store -/

theorem processCard_isActive_witness :
    (exEnv okTransport).findOneByCard "4111" exStore = (.ok (some ticketResolved), exStore)
    ∧ ticketResolved.isActive = true
    ∧ Event.send "fraud-queue" exMessage ∈ (processCard (exEnv okTransport) "4111" exStore).events
    ∧ (ticketResolved.currentState = "resolved" → exMessage.data.isActive = false)
    ∧ (ticketResolved.currentState ≠ "resolved" →
        exMessage.data.isActive = ticketResolved.isActive) :=
  ⟨rfl, rfl, by decide,
    processCard_isActive (exEnv okTransport)
      (fun id set s u s1 h => seqEnv_update_isActive _ _ _ _ id set s u s1 h)
      "4111" exStore exStore ticketResolved rfl "fraud-queue" exMessage (by decide)⟩

theorem processCard_isAutomaticApproval_false_witness :
    (exStore.tickets.map fun t => t._id).Nodup
    ∧ (∀ ticket, exStore.findOneByCard "4222" = some ticket →
      ∃ previous updated st1,
        exStore.findOneById ticket._id = some previous
        ∧ exStore.findOneAndUpdate ticket._id (confirmationSet ticket) = (some updated, st1)
        ∧ previous.currentState = updated.currentState)
    ∧ (∀ q m,
        Event.send q m
          ∈ (processCard (seqEnv "fraud-queue" "reprocess" exValid okTransport) "4222"
              exStore).events →
        m.data.isAutomaticApproval = false) :=
  ⟨by decide,
    processCard_isAutomaticApproval_false "fraud-queue" "reprocess" exValid okTransport exStore
      "4222" (by decide)⟩

/-! ## The approver: claim C4 -/

/-- C4, as the code has it.  On the reference store, which answers the query
of line 82 most recent first: every message that `processCard` hands to
`pub.send` belongs to the ticket found for the card, and with `entry` the most
recent history entry of that ticket, `approvedBy` is the system-actor
identifier `67196460d327c12bfe9233a4` when `entry.responsible` is
`ticketProcessor`; for any other `responsible` that `new ObjectId` accepts it
is the identifier that the string denotes, with the letters in lower case; and
when `new ObjectId` rejects the `responsible` of the most recent entry, the
card takes the `failed` exit and nothing is sent. -/
theorem processCard_approvedBy (queueName queueAction : String)
    (validObjectId : String → Bool) (T : Transport) (st : Store) (card : String) :
    (∀ q m,
      Event.send q m
        ∈ (processCard (seqEnv queueName queueAction validObjectId T) card st).events →
      ∃ ticket entry, st.findOneByCard card = some ticket
        ∧ entry ∈ st.history ∧ entry.ticketId = ticket._id
        ∧ (∀ e ∈ st.history, e.ticketId = ticket._id → e.date ≤ entry.date)
        ∧ (entry.responsible = "ticketProcessor" →
            m.data.approvedBy = ⟨"67196460d327c12bfe9233a4"⟩)
        ∧ (entry.responsible ≠ "ticketProcessor" →
            validObjectId entry.responsible = true
              ∧ m.data.approvedBy = ⟨hexText entry.responsible⟩))
    ∧ (∀ ticket entry rest, st.findOneByCard card = some ticket →
        st.findHistory ticket._id .descending = entry :: rest →
        entry.responsible ≠ "ticketProcessor" →
        validObjectId entry.responsible = false →
        (∃ reason,
          (processCard (seqEnv queueName queueAction validObjectId T) card st).result
            = .ok (.failed reason))
        ∧ ∀ e ∈ (processCard (seqEnv queueName queueAction validObjectId T) card st).events,
            ∀ q m, e ≠ .send q m) := by
  constructor
  · intro q m h
    obtain ⟨ticket, s1, o, s2, u, s3, entry, rest, s4, g1, g2, g3, g4, _, hm, hvalid⟩ :=
      processCard_send_inv _ card st q m h
    simp only [seqEnv, Prod.mk.injEq, Except.ok.injEq] at g1 g2 g3 g4 hvalid
    obtain ⟨g1, rfl⟩ := g1
    obtain ⟨_, rfl⟩ := g2
    obtain ⟨_, rfl⟩ := g3
    rw [findHistory_findOneAndUpdate] at g4
    obtain ⟨hmem, hid, hmax⟩ := findHistory_descending_head st ticket._id entry rest g4.1
    refine ⟨ticket, entry, g1, hmem, hid, hmax, ?_, ?_⟩
    · intro hr
      rw [hm]
      simp only [hr, if_true]
      decide
    · intro hr
      rw [hm]
      simp only [hr, if_false] at hvalid
      refine ⟨hvalid, ?_⟩
      simp [hr]
  · intro ticket entry rest h1 h4 hr hv
    exact processCard_rejected_responsible (seqEnv queueName queueAction validObjectId T) card
      st st st (st.findOneAndUpdate ticket._id (confirmationSet ticket)).2
      (st.findOneAndUpdate ticket._id (confirmationSet ticket)).2 ticket
      (.ok (st.findOneById ticket._id))
      (.ok (st.findOneAndUpdate ticket._id (confirmationSet ticket)).1) entry rest
      (by simp [seqEnv, h1]) rfl rfl
      (by simp [seqEnv, findHistory_findOneAndUpdate, h4]) hr hv

/-- C4 as the specification has it fails.  The most recent entry of the ticket
of card `4444` names the actor `65F0A1B2C3D4E5F6012300BB`, which is not the
sentinel; the message sent has `approvedBy` `65f0a1b2c3d4e5f6012300bb`, not
the value as written.  The only entry of the ticket of card `4555` names
`admin`; no message is sent at all and the card fails. -/
theorem processCard_approvedBy_changed :
    exStoreActors.findHistory ticketUpper._id .descending
        = [⟨ticketUpper._id, "65F0A1B2C3D4E5F6012300BB", 9⟩,
           ⟨ticketUpper._id, "ticketProcessor", 3⟩]
    ∧ Event.send "fraud-queue" exMessageUpper
        ∈ (processCard (exEnv okTransport) "4444" exStoreActors).events
    ∧ exMessageUpper.data.approvedBy = ⟨"65f0a1b2c3d4e5f6012300bb"⟩
    ∧ exMessageUpper.data.approvedBy ≠ ⟨"65F0A1B2C3D4E5F6012300BB"⟩
    ∧ exStoreActors.findHistory ticketNamed._id .descending = [⟨ticketNamed._id, "admin", 4⟩]
    ∧ (processCard (exEnv okTransport) "4555" exStoreActors).result
        = .ok (.failed
            "input must be a 24 character hex string, 12 byte Uint8Array, or an integer")
    ∧ (processCard (exEnv okTransport) "4555" exStoreActors).events
        = [.logProcessing "4555",
           .findOneByCard "4555",
           .findOneById ticketNamed._id,
           .findOneAndUpdate ticketNamed._id ⟨"new", true⟩,
           .logUpdatedCard ⟨"4555"⟩,
           .findHistory ticketNamed._id,
           .logResponsible "admin",
           .errorCard "4555"
             "input must be a 24 character hex string, 12 byte Uint8Array, or an integer"] :=
  ⟨by decide, by decide, by decide, by decide, by decide, rfl, by decide⟩

theorem processCard_approvedBy_witness :
    Event.send "fraud-queue" exMessage ∈ (processCard (exEnv okTransport) "4111" exStore).events
    ∧ Event.send "fraud-queue" exMessageUpper
        ∈ (processCard (exEnv okTransport) "4444" exStoreActors).events
    ∧ (∃ ticket entry, exStore.findOneByCard "4111" = some ticket
        ∧ entry ∈ exStore.history ∧ entry.ticketId = ticket._id
        ∧ (∀ e ∈ exStore.history, e.ticketId = ticket._id → e.date ≤ entry.date)
        ∧ (entry.responsible = "ticketProcessor" →
            exMessage.data.approvedBy = ⟨"67196460d327c12bfe9233a4"⟩)
        ∧ (entry.responsible ≠ "ticketProcessor" →
            exValid entry.responsible = true
              ∧ exMessage.data.approvedBy = ⟨hexText entry.responsible⟩))
    ∧ (∃ ticket entry, exStoreActors.findOneByCard "4444" = some ticket
        ∧ entry ∈ exStoreActors.history ∧ entry.ticketId = ticket._id
        ∧ (∀ e ∈ exStoreActors.history, e.ticketId = ticket._id → e.date ≤ entry.date)
        ∧ (entry.responsible = "ticketProcessor" →
            exMessageUpper.data.approvedBy = ⟨"67196460d327c12bfe9233a4"⟩)
        ∧ (entry.responsible ≠ "ticketProcessor" →
            exValid entry.responsible = true
              ∧ exMessageUpper.data.approvedBy = ⟨hexText entry.responsible⟩)) :=
  ⟨by decide, by decide,
    (processCard_approvedBy "fraud-queue" "reprocess" exValid okTransport exStore "4111").1
      "fraud-queue" exMessage (by decide),
    (processCard_approvedBy "fraud-queue" "reprocess" exValid okTransport exStoreActors
      "4444").1 "fraud-queue" exMessageUpper (by decide)⟩

end ReprocessCards
